import Mathlib

/- Shallow embedding of the Backtrader-V3 core: the strategy decision
   state machines of src/scr/core/strategies.py, the walk-forward window
   loop of src/scr/runners/run_walk_forward.py and the optimization
   ranking of src/scr/runners/run_optimization.py.
   Python floats are modelled as rationals, Python calendar dates as
   integers (day numbers).  A Python ZeroDivisionError that is caught by
   a surrounding except-clause is modelled explicitly at each division
   site, since division on the rationals is total. -/

/-- Stop-loss mode: the `sl_mode` parameter of `MACD_LinePeakStrategy_v2`
(one of the strings 'ATR', 'Percent', 'Ticks'). -/
inductive SlMode
  | atr
  | percent
  | ticks
deriving DecidableEq

/-- An order intent emitted by a strategy on one bar: `self.buy()` carries
an optional explicit size (only variant C passes one), `self.sell(size=...)`
always carries one, `self.close()` carries none. -/
inductive OrderIntent
  | buy (size : Option ℚ)
  | sell (size : ℚ)
  | close
deriving DecidableEq

/-- Backtrader order status values that the strategies' `notify_order`
callbacks branch on. -/
inductive OrderStatus
  | submitted
  | accepted
  | partFilled
  | completed
  | canceled
  | expired
  | margin
  | rejected
deriving DecidableEq

/-- The `params` tuple of `MACD_LinePeakStrategy_v2`
(src/scr/core/strategies.py lines 73-90). -/
structure V2Params where
  p_fast1 : ℕ
  p_slow1 : ℕ
  p_fast2 : ℕ
  p_slow2 : ℕ
  p_fast3 : ℕ
  p_slow3 : ℕ
  p_signal : ℕ
  risk_pct : ℚ
  sl_mode : SlMode
  atr_len : ℕ
  atr_mult : ℚ
  sl_percent : ℚ
  sl_ticks : ℚ
  min_qty : ℚ
deriving DecidableEq

/-- The default parameter values of `MACD_LinePeakStrategy_v2`
(risk_pct 1.0, sl_mode 'ATR', atr_mult 2.0, sl_percent 1.5,
sl_ticks 50, min_qty 0.0001). -/
def defaultParams : V2Params :=
  { p_fast1 := 5, p_slow1 := 20, p_fast2 := 5, p_slow2 := 40,
    p_fast3 := 20, p_slow3 := 40, p_signal := 9,
    risk_pct := 1, sl_mode := SlMode.atr, atr_len := 14, atr_mult := 2,
    sl_percent := 3/2, sl_ticks := 50, min_qty := 1/10000 }

/-- `MACD_LinePeakStrategy_v2.calculate_stop_distance`
(src/scr/core/strategies.py lines 123-132): ATR mode `atr[0] * atr_mult`,
percent mode `entry_price * sl_percent/100`, ticks mode
`sl_ticks * 0.01` (hard-coded tick size 0.01). -/
def calculate_stop_distance (p : V2Params) (atr0 entry_price : ℚ) : ℚ :=
  match p.sl_mode with
  | SlMode.atr => atr0 * p.atr_mult
  | SlMode.percent => entry_price * (p.sl_percent / 100)
  | SlMode.ticks => p.sl_ticks * (1/100)

/-- `MACD_LinePeakStrategy_v2.calculate_position_size`
(src/scr/core/strategies.py lines 134-147).  The whole body is wrapped in
try/except returning `min_qty`; the only failure a pure reading can hit
is a ZeroDivisionError from dividing by `entry_price`, modelled by the
explicit `entry_price = 0` tests.  `portfolio_value` is
`self.broker.getvalue()`. -/
def calculate_position_size (p : V2Params) (portfolio_value entry_price stop_distance : ℚ) : ℚ :=
  let risk_cash := portfolio_value * (p.risk_pct / 100)
  if 0 < stop_distance then
    let position_size := risk_cash / stop_distance
    if entry_price = 0 then p.min_qty
    else max (position_size / entry_price) p.min_qty
  else
    if entry_price = 0 then p.min_qty
    else portfolio_value * (2/100) / entry_price

/-- `MACD_LinePeakStrategy_v2.check_stop_loss`
(src/scr/core/strategies.py lines 149-153): Python truthiness of
`self.position` (nonzero size) and `self.stop_price` (set and nonzero). -/
def check_stop_loss (position_size : ℚ) (stop_price : Option ℚ) (close0 : ℚ) : Bool :=
  match stop_price with
  | some sp => if position_size ≠ 0 ∧ sp ≠ 0 then decide (close0 ≤ sp) else false
  | none => false

/-- The local-peak test of both MACD variants
(src/scr/core/strategies.py lines 204-205 and 333-336):
`m[-2] < m[-1] > m[0]`, read on the whole MACD line series with `t` the
current bar index, so `m[0]` is `value[t]`, `m[-1]` is `value[t-1]` and
`m[-2]` is `value[t-2]`.  Where `t-2` is undefined the strategies never
evaluate the expression (warm-up guard), so the predicate is false
there. -/
def is_macd_line_peaked (m : List ℚ) (t : ℕ) : Bool :=
  if 2 ≤ t ∧ t < m.length then
    decide (m.getD (t-2) 0 < m.getD (t-1) 0) && decide (m.getD t 0 < m.getD (t-1) 0)
  else false

/-- The mutable per-instance state of `MACD_LinePeakStrategy_v2`:
`self.order` (pending-order marker, modelled as the Boolean
"self.order is not None"), `self.position_level`, `self.peak_detected`,
`self.stop_price`, `self.entry_price`, and the lazily created
`self.last_signal_bar` attribute (none before the first assignment,
matching the hasattr test). -/
structure V2State where
  order : Bool
  position_level : ℕ
  peak_detected : Bool
  stop_price : Option ℚ
  entry_price : Option ℚ
  last_signal_bar : Option ℕ
deriving DecidableEq

/-- Everything `MACD_LinePeakStrategy_v2.next` reads from the framework on
one bar: `len(self.data)`, the calendar dates of the current and previous
bar, the close, the ATR value, the broker portfolio value and position
size, the three MACD line values at offsets 0 and -1 (and -2 for the
signal instance), and the `CrossOver(macd, signal)` indicator value. -/
structure V2Bar where
  len : ℕ
  date0 : ℤ
  datePrev : ℤ
  close0 : ℚ
  atr0 : ℚ
  portfolio_value : ℚ
  position_size : ℚ
  macd1_0 : ℚ
  macd1_m1 : ℚ
  macd2_0 : ℚ
  macd2_m1 : ℚ
  macd2_m2 : ℚ
  macd3_0 : ℚ
  macd3_m1 : ℚ
  macd2_signal_cross : ℚ
deriving DecidableEq

/-- `MACD_LinePeakStrategy_v2.next` (src/scr/core/strategies.py lines
173-247) as a pure transition: guards in source order (pending order,
warm-up length, closed-bar date test, duplicate-signal bar), then the
stop-loss check, then entry and the two-stage exit logic.  Returns the
updated state and the at most one order intent emitted on the bar. -/
def v2Next (p : V2Params) (s : V2State) (b : V2Bar) : V2State × Option OrderIntent :=
  if s.order then (s, none)
  else if b.len < p.p_slow2 + p.p_signal then (s, none)
  else if 1 < b.len ∧ b.date0 ≤ b.datePrev then (s, none)
  else if s.last_signal_bar = some b.len then (s, none)
  else if check_stop_loss b.position_size s.stop_price b.close0 then
    ({ s with order := true, last_signal_bar := some b.len }, some OrderIntent.close)
  else
    let is_unified_uptrend :=
      b.macd1_m1 < b.macd1_0 ∧ b.macd2_m1 < b.macd2_0 ∧ b.macd3_m1 < b.macd3_0
    let is_macd2_above_zero := 0 < b.macd2_0
    let peaked := b.macd2_m2 < b.macd2_m1 ∧ b.macd2_0 < b.macd2_m1
    let is_macd_cross_down := b.macd2_signal_cross < 0
    if b.position_size = 0 then
      if is_unified_uptrend ∧ is_macd2_above_zero then
        let entry_price := b.close0
        let stop_distance := calculate_stop_distance p b.atr0 entry_price
        let position_size :=
          calculate_position_size p b.portfolio_value entry_price stop_distance
        ({ s with order := true, position_level := 2, peak_detected := false,
                  last_signal_bar := some b.len },
         some (OrderIntent.buy (some position_size)))
      else (s, none)
    else
      if s.position_level = 2 ∧ peaked ∧ s.peak_detected = false then
        ({ s with order := true, position_level := 1, peak_detected := true,
                  last_signal_bar := some b.len },
         some (OrderIntent.sell (b.position_size * (1/2))))
      else if 0 < s.position_level ∧ is_macd_cross_down then
        ({ s with order := true, last_signal_bar := some b.len },
         some OrderIntent.close)
      else (s, none)

/-- An order notification delivered to `notify_order`: the status, whether
the order was a buy, and the executed price. -/
structure OrderEvent where
  status : OrderStatus
  isbuy : Bool
  executed_price : ℚ
deriving DecidableEq

/-- `MACD_LinePeakStrategy_v2.notify_order` (src/scr/core/strategies.py
lines 155-171).  `atr0` is the ATR value read by
`calculate_stop_distance`; `position_after` is `self.position.size` after
the fill (the reset branch runs only once the position is fully closed). -/
def v2NotifyOrder (p : V2Params) (s : V2State) (ev : OrderEvent)
    (atr0 position_after : ℚ) : V2State :=
  match ev.status with
  | OrderStatus.completed =>
    let s1 :=
      if ev.isbuy then
        let entry_price := ev.executed_price
        let stop_distance := calculate_stop_distance p atr0 entry_price
        { s with entry_price := some entry_price,
                 stop_price := some (entry_price - stop_distance) }
      else s
    let s2 := { s1 with order := false }
    if position_after = 0 then
      { s2 with position_level := 0, peak_detected := false,
                stop_price := none, entry_price := none }
    else s2
  | OrderStatus.canceled => { s with order := false }
  | OrderStatus.margin => { s with order := false }
  | OrderStatus.rejected => { s with order := false }
  | _ => s

/-- The mutable per-instance state of `MACD_LinePeakStrategy` (variant B,
no stop-loss fields). -/
structure V1State where
  order : Bool
  position_level : ℕ
  peak_detected : Bool
  last_signal_bar : Option ℕ
deriving DecidableEq

/-- Everything `MACD_LinePeakStrategy.next` reads from the framework on
one bar. -/
structure V1Bar where
  len : ℕ
  date0 : ℤ
  datePrev : ℤ
  position_size : ℚ
  macd1_0 : ℚ
  macd1_m1 : ℚ
  macd2_0 : ℚ
  macd2_m1 : ℚ
  macd2_m2 : ℚ
  macd3_0 : ℚ
  macd3_m1 : ℚ
  macd2_signal_cross : ℚ
deriving DecidableEq

/-- `MACD_LinePeakStrategy.next` (src/scr/core/strategies.py lines
308-375): the same four guards as variant C, no stop-loss, fixed-size
entry `self.buy()`, half exit `self.sell(size=self.position.size / 2.0)`,
final exit `self.close()`. -/
def v1Next (p_slow2 p_signal : ℕ) (s : V1State) (b : V1Bar) : V1State × Option OrderIntent :=
  if s.order then (s, none)
  else if b.len < p_slow2 + p_signal then (s, none)
  else if 1 < b.len ∧ b.date0 ≤ b.datePrev then (s, none)
  else if s.last_signal_bar = some b.len then (s, none)
  else
    let is_unified_uptrend :=
      b.macd1_m1 < b.macd1_0 ∧ b.macd2_m1 < b.macd2_0 ∧ b.macd3_m1 < b.macd3_0
    let is_macd2_above_zero := 0 < b.macd2_0
    let peaked := b.macd2_m2 < b.macd2_m1 ∧ b.macd2_0 < b.macd2_m1
    let is_macd_cross_down := b.macd2_signal_cross < 0
    if b.position_size = 0 then
      if is_unified_uptrend ∧ is_macd2_above_zero then
        ({ s with order := true, position_level := 2, peak_detected := false,
                  last_signal_bar := some b.len },
         some (OrderIntent.buy none))
      else (s, none)
    else
      if s.position_level = 2 ∧ peaked ∧ s.peak_detected = false then
        ({ s with order := true, position_level := 1, peak_detected := true,
                  last_signal_bar := some b.len },
         some (OrderIntent.sell (b.position_size / 2)))
      else if 0 < s.position_level ∧ is_macd_cross_down then
        ({ s with order := true, last_signal_bar := some b.len },
         some OrderIntent.close)
      else (s, none)

/-- `MACD_LinePeakStrategy.notify_order` (src/scr/core/strategies.py lines
299-306). -/
def v1NotifyOrder (s : V1State) (ev : OrderEvent) (position_after : ℚ) : V1State :=
  match ev.status with
  | OrderStatus.completed =>
    let s2 := { s with order := false }
    if position_after = 0 then
      { s2 with position_level := 0, peak_detected := false }
    else s2
  | OrderStatus.canceled => { s with order := false }
  | OrderStatus.margin => { s with order := false }
  | OrderStatus.rejected => { s with order := false }
  | _ => s

/-- `SmaCrossStrategy.next` (src/scr/core/strategies.py lines 22-52) under
the shared StrategyDecisionEngine contract (spec section 4.2: per-bar input
includes whether an order is already pending).  The source performs no
check at all on the pending flag, no warm-up length check and no
processed-bar check, so the body depends only on the position and the
crossover sign: buy on positive crossover while flat, close on negative
crossover while in position. -/
def smaCrossNext (pending : Bool) (position_size crossover : ℚ) : Option OrderIntent :=
  if position_size = 0 then
    if 0 < crossover then some (OrderIntent.buy none) else none
  else if crossover < 0 then some OrderIntent.close
  else none

/-- One walk-forward cycle's window bounds, in whole days
(`run_walk_forward.main` builds them with `timedelta(days=...)`); every
window is used inclusively on both ends, because
`full_data.loc[a:b]` slicing in `run_single_wfa_cycle` includes both
endpoint labels. -/
structure WfaCycle where
  train_start : ℤ
  train_end : ℤ
  test_start : ℤ
  test_end : ℤ
deriving DecidableEq

/-- The window bounds built from one cursor value
(src/scr/runners/run_walk_forward.py lines 76-79):
train `[cursor, cursor+train_delta]`, test
`[train_end + 1 day, train_end + 1 day + test_delta]`. -/
def wfaStep (train_delta test_delta current : ℤ) : WfaCycle :=
  { train_start := current,
    train_end := current + train_delta,
    test_start := current + train_delta + 1,
    test_end := current + train_delta + 1 + test_delta }

/-- The while loop of `run_walk_forward.main` (lines 74-91): while
`cursor + train_delta + test_delta <= end_date`, emit the cycle at the
cursor and advance the cursor by `test_delta`.  Structural fuel stands in
for the loop's termination (the source loop terminates whenever
`test_delta` is positive; `wfaCycles` passes fuel that then suffices). -/
def wfaLoop (train_delta test_delta end_date : ℤ) : ℕ → ℤ → List WfaCycle
  | 0, _ => []
  | fuel+1, current =>
    if current + train_delta + test_delta ≤ end_date then
      wfaStep train_delta test_delta current ::
        wfaLoop train_delta test_delta end_date fuel (current + test_delta)
    else []

/-- The complete walk-forward window schedule of `run_walk_forward.main`,
starting the cursor at the series start date. -/
def wfaCycles (start_date end_date train_delta test_delta : ℤ) : List WfaCycle :=
  wfaLoop train_delta test_delta end_date ((end_date - start_date).toNat + 1) start_date

/-- One optimization result as seen by the ranking code of
`print_optimization_summary`: its position in the enumeration order and
the value of the ranking metric, where `none` stands for a result whose
dictionary is missing the metric key or carries a Python None there
(both fail the filter `target_metric in r and r[target_metric] is not
None`). -/
structure OptEntry where
  idx : ℕ
  metric : Option ℚ
deriving DecidableEq

/-- The sort key used once the None/missing entries are filtered out
(the default 0 is never read on filtered lists). -/
def metricKey (r : OptEntry) : ℚ := r.metric.getD 0

/-- Stable descending insertion: keeps walking while the existing element
has a strictly larger key, so an inserted element lands after every
earlier element with an equal key.  A stable descending sort is unique,
so this models Python's stable `list.sort(key=..., reverse=True)` in
src/scr/runners/run_optimization.py line 556. -/
def insertDescOpt (x : OptEntry) : List OptEntry → List OptEntry
  | [] => [x]
  | y :: ys =>
    if metricKey x < metricKey y then y :: insertDescOpt x ys
    else x :: y :: ys

/-- Stable descending sort by the ranking metric (see `insertDescOpt`). -/
def sortDescOpt : List OptEntry → List OptEntry
  | [] => []
  | x :: xs => insertDescOpt x (sortDescOpt xs)

/-- The filter of `print_optimization_summary`
(src/scr/runners/run_optimization.py line 549): keep only results whose
metric key is present and not None. -/
def validResults (l : List OptEntry) : List OptEntry :=
  l.filter (fun r => r.metric.isSome)

/-- The ranked list that `print_optimization_summary` prints from: the
filtered results, stably sorted descending by the target metric
(lines 549-556). -/
def rankedResults (l : List OptEntry) : List OptEntry :=
  sortDescOpt (validResults l)

/-- Strict ranking order on entries with distinct enumeration indices:
either a strictly larger metric, or an equal metric and an earlier
enumeration index.  A list that is `Pairwise rankLt` is sorted descending
by the metric and stable (original order kept on ties). -/
def rankLt (a b : OptEntry) : Prop :=
  metricKey b < metricKey a ∨ (metricKey a = metricKey b ∧ a.idx < b.idx)

/-- A fresh variant-C strategy state as `__init__` creates it. -/
def initialV2State : V2State :=
  { order := false, position_level := 0, peak_detected := false,
    stop_price := none, entry_price := none, last_signal_bar := none }

/-- A variant-C state holding a full position whose stored stop price is
exactly 0.0 (as `notify_order` computes when the buy fill price equals
the stop distance). -/
def zeroStopState : V2State :=
  { order := false, position_level := 2, peak_detected := false,
    stop_price := some 0, entry_price := some 5, last_signal_bar := none }

/-- A post-warm-up bar on which the close sits at or below the stored
stop 0, while the signal MACD line also shows a fresh local peak. -/
def zeroStopBar : V2Bar :=
  { len := 49, date0 := 10, datePrev := 9, close0 := -1, atr0 := 1,
    portfolio_value := 1000, position_size := 1,
    macd1_0 := 0, macd1_m1 := 0, macd2_0 := 1, macd2_m1 := 2,
    macd2_m2 := 1, macd3_0 := 0, macd3_m1 := 0, macd2_signal_cross := 0 }

/-- A bar whose calendar date equals the previous bar's date (an
unfinished sub-daily bar in the source's reading). -/
def staleDateBar : V2Bar :=
  { len := 50, date0 := 5, datePrev := 5, close0 := 10, atr0 := 1,
    portfolio_value := 1000, position_size := 0,
    macd1_0 := 0, macd1_m1 := 0, macd2_0 := 0, macd2_m1 := 0,
    macd2_m2 := 0, macd3_0 := 0, macd3_m1 := 0, macd2_signal_cross := 0 }

/-- A fresh variant-B strategy state as `__init__` creates it. -/
def initialV1State : V1State :=
  { order := false, position_level := 0, peak_detected := false,
    last_signal_bar := none }

/-- A variant-B bar whose calendar date equals the previous bar's date. -/
def staleDateBarV1 : V1Bar :=
  { len := 50, date0 := 5, datePrev := 5, position_size := 0,
    macd1_0 := 0, macd1_m1 := 0, macd2_0 := 0, macd2_m1 := 0,
    macd2_m2 := 0, macd3_0 := 0, macd3_m1 := 0, macd2_signal_cross := 0 }

/-- A margin-rejection notification for a buy order. -/
def marginRejectionEvent : OrderEvent :=
  { status := OrderStatus.margin, isbuy := true, executed_price := 5 }

/-- The example MACD signal-line series of the spec:
values 1.0, 1.5, 2.0, 1.8, 1.2 at bars 0-4. -/
def peakExampleSeries : List ℚ := [1, 3/2, 2, 9/5, 6/5]

/-- Three enumerated optimization results, the middle one carrying a
missing/None ranking metric. -/
def optEntriesExample : List OptEntry :=
  [{ idx := 0, metric := some 1 }, { idx := 1, metric := none },
   { idx := 2, metric := some 1 }]

/-- A variant-C state holding a full position with a nonzero stored stop
price of 4. -/
def stopHitState : V2State :=
  { order := false, position_level := 2, peak_detected := false,
    stop_price := some 4, entry_price := some 5, last_signal_bar := none }

/-- A post-warm-up bar whose close 3 sits below the stored stop 4. -/
def stopHitBar : V2Bar :=
  { len := 49, date0 := 10, datePrev := 9, close0 := 3, atr0 := 1,
    portfolio_value := 1000, position_size := 1,
    macd1_0 := 0, macd1_m1 := 0, macd2_0 := 1, macd2_m1 := 2,
    macd2_m2 := 1, macd3_0 := 0, macd3_m1 := 0, macd2_signal_cross := 0 }

theorem v2Next_skips (p : V2Params) (s : V2State) (b : V2Bar)
    (h : s.order = true ∨ b.len < p.p_slow2 + p.p_signal ∨
      (1 < b.len ∧ b.date0 ≤ b.datePrev) ∨ s.last_signal_bar = some b.len) :
    v2Next p s b = (s, none) := by
  unfold v2Next
  by_cases h1 : s.order = true
  · simp [h1]
  · by_cases h2 : b.len < p.p_slow2 + p.p_signal
    · simp [h1, h2]
    · by_cases h3 : 1 < b.len ∧ b.date0 ≤ b.datePrev
      · simp [h1, h2, h3]
      · by_cases h4 : s.last_signal_bar = some b.len
        · simp [h1, h2, h3, h4]
        · rcases h with h | h | h | h <;> simp_all

theorem v1Next_skips (p_slow2 p_signal : ℕ) (s : V1State) (b : V1Bar)
    (h : s.order = true ∨ b.len < p_slow2 + p_signal ∨
      (1 < b.len ∧ b.date0 ≤ b.datePrev) ∨ s.last_signal_bar = some b.len) :
    v1Next p_slow2 p_signal s b = (s, none) := by
  unfold v1Next
  by_cases h1 : s.order = true
  · simp [h1]
  · by_cases h2 : b.len < p_slow2 + p_signal
    · simp [h1, h2]
    · by_cases h3 : 1 < b.len ∧ b.date0 ≤ b.datePrev
      · simp [h1, h2, h3]
      · by_cases h4 : s.last_signal_bar = some b.len
        · simp [h1, h2, h3, h4]
        · rcases h with h | h | h | h <;> simp_all

theorem v2Next_preserves_stop_price (p : V2Params) (s : V2State) (b : V2Bar) :
    (v2Next p s b).1.stop_price = s.stop_price := by
  unfold v2Next
  dsimp only
  split_ifs <;> rfl

theorem wfaLoop_getElem_eq (train_delta test_delta end_date : ℤ) :
    ∀ (fuel : ℕ) (current : ℤ) (i : ℕ) (c : WfaCycle),
      (wfaLoop train_delta test_delta end_date fuel current)[i]? = some c →
      c = wfaStep train_delta test_delta (current + (i : ℤ) * test_delta) := by
  intro fuel
  induction fuel with
  | zero =>
    intro current i c h
    simp [wfaLoop] at h
  | succ n ih =>
    intro current i c h
    rw [wfaLoop] at h
    by_cases hcond : current + train_delta + test_delta ≤ end_date
    · rw [if_pos hcond] at h
      cases i with
      | zero =>
        rw [List.getElem?_cons_zero] at h
        rw [Option.some_inj] at h
        rw [← h]
        norm_num
      | succ j =>
        rw [List.getElem?_cons_succ] at h
        have hj := ih (current + test_delta) j c h
        rw [hj]
        congr 1
        push_cast
        ring
    · rw [if_neg hcond] at h
      simp at h

theorem insertDescOpt_perm (x : OptEntry) (l : List OptEntry) :
    List.Perm (insertDescOpt x l) (x :: l) := by
  induction l with
  | nil => simp [insertDescOpt]
  | cons y ys ih =>
    unfold insertDescOpt
    by_cases h : metricKey x < metricKey y
    · rw [if_pos h]
      exact (ih.cons y).trans (List.Perm.swap x y ys)
    · rw [if_neg h]

theorem sortDescOpt_perm (l : List OptEntry) : List.Perm (sortDescOpt l) l := by
  induction l with
  | nil => simp [sortDescOpt]
  | cons x xs ih =>
    exact (insertDescOpt_perm x (sortDescOpt xs)).trans (ih.cons x)

theorem insertDescOpt_pairwise (x : OptEntry) (l : List OptEntry)
    (hidx : ∀ z ∈ l, x.idx < z.idx) (hp : l.Pairwise rankLt) :
    (insertDescOpt x l).Pairwise rankLt := by
  induction l with
  | nil => simp [insertDescOpt]
  | cons y ys ih =>
    rw [List.pairwise_cons] at hp
    obtain ⟨hy, hys⟩ := hp
    unfold insertDescOpt
    by_cases h : metricKey x < metricKey y
    · rw [if_pos h]
      rw [List.pairwise_cons]
      constructor
      · intro z hz
        rcases List.mem_cons.mp ((insertDescOpt_perm x ys).mem_iff.mp hz) with hzx | hzys
        · rw [hzx]
          exact Or.inl h
        · exact hy z hzys
      · exact ih (fun z hz => hidx z (List.mem_cons_of_mem y hz)) hys
    · rw [if_neg h]
      push_neg at h
      rw [List.pairwise_cons]
      constructor
      · intro z hz
        rcases List.mem_cons.mp hz with hzy | hzys
        · rw [hzy]
          rcases lt_or_eq_of_le h with hlt | heq
          · exact Or.inl hlt
          · exact Or.inr ⟨heq.symm, hidx y (List.mem_cons_self y ys)⟩
        · have hkz : metricKey z ≤ metricKey y := by
            rcases hy z hzys with h1 | ⟨h1, _⟩
            · exact le_of_lt h1
            · exact le_of_eq h1.symm
          rcases lt_or_eq_of_le (le_trans hkz h) with hlt | heq
          · exact Or.inl hlt
          · exact Or.inr ⟨heq.symm, hidx z (List.mem_cons_of_mem y hzys)⟩
      · rw [List.pairwise_cons]
        exact ⟨hy, hys⟩

theorem sortDescOpt_pairwise (l : List OptEntry)
    (h : l.Pairwise fun a b => a.idx < b.idx) :
    (sortDescOpt l).Pairwise rankLt := by
  induction l with
  | nil => simp [sortDescOpt]
  | cons x xs ih =>
    rw [List.pairwise_cons] at h
    exact insertDescOpt_pairwise x (sortDescOpt xs)
      (fun z hz => h.1 z ((sortDescOpt_perm xs).mem_iff.mp hz)) (ih h.2)

/-- C1 counterexample: with account equity 0 and stop distance 0 (the two
edge cases the claim names), `calculate_position_size` returns
`0 * 0.02 / entry_price = 0`, which is not strictly positive — the
fallback branch bypasses the `min_qty` floor. -/
theorem calculate_position_size_zero_at_zero_equity :
    calculate_position_size defaultParams 0 100 0 = 0 ∧
    ¬ 0 < calculate_position_size defaultParams 0 100 0 := by
  norm_num [calculate_position_size, defaultParams]

/-- C1 (amended): when `stop_distance > 0` the returned size is strictly
positive whenever the configured minimum quantity is (it is floored at
`min_qty`), and a computation failure (zero entry price raising
ZeroDivisionError inside the try block) returns `min_qty`; but when
`stop_distance ≤ 0` the fallback `portfolio_value*0.02/entry_price` is
returned without the minimum-quantity floor — strictly positive only for
positive equity and entry price, and exactly 0 when equity is 0. -/
theorem calculate_position_size_sign (p : V2Params) (pv ep sd : ℚ)
    (hmq : 0 < p.min_qty) :
    (0 < sd → 0 < calculate_position_size p pv ep sd) ∧
    (ep = 0 → calculate_position_size p pv ep sd = p.min_qty) ∧
    (¬ 0 < sd → 0 < pv → 0 < ep → 0 < calculate_position_size p pv ep sd) ∧
    (¬ 0 < sd → pv = 0 → ep ≠ 0 → calculate_position_size p pv ep sd = 0) := by
  unfold calculate_position_size
  dsimp only
  refine ⟨?_, ?_, ?_, ?_⟩
  · intro hsd
    rw [if_pos hsd]
    by_cases hep : ep = 0
    · rw [if_pos hep]
      exact hmq
    · rw [if_neg hep]
      exact lt_of_lt_of_le hmq (le_max_right _ _)
  · intro hep
    by_cases hsd : 0 < sd
    · rw [if_pos hsd, if_pos hep]
    · rw [if_neg hsd, if_pos hep]
  · intro hsd hpv hep
    rw [if_neg hsd, if_neg (ne_of_gt hep)]
    exact div_pos (mul_pos hpv (by norm_num)) hep
  · intro hsd hpv hep
    rw [if_neg hsd, if_neg hep, hpv]
    ring

/-- C1 amended-claim check at the spec's own example input. -/
theorem calculate_position_size_sign_check :
    0 < calculate_position_size defaultParams 10000 100 2 :=
  (calculate_position_size_sign defaultParams 10000 100 2
    (by norm_num [defaultParams])).1 (by norm_num)

/-- C7 (confirmed): for positive stop distance the size is
`(equity * risk_pct/100) / stop_distance / entry_price` floored at
`min_qty`; for stop distance 0 it is the fixed 2%-of-equity fallback; and
the spec's example (equity 10000, risk fraction 0.01, entry 100, stop
distance 2) yields exactly 0.5 units. -/
theorem calculate_position_size_formula (p : V2Params) (pv ep sd : ℚ)
    (hep : ep ≠ 0) :
    (0 < sd → calculate_position_size p pv ep sd =
      max (pv * (p.risk_pct / 100) / sd / ep) p.min_qty) ∧
    (calculate_position_size p pv ep 0 = pv * (2/100) / ep) ∧
    calculate_position_size defaultParams 10000 100 2 = 1/2 := by
  refine ⟨?_, ?_, by norm_num [calculate_position_size, defaultParams]⟩
  · intro hsd
    unfold calculate_position_size
    dsimp only
    rw [if_pos hsd, if_neg hep]
  · unfold calculate_position_size
    dsimp only
    rw [if_neg (lt_irrefl 0), if_neg hep]

/-- C7 formula check at the spec's example input. -/
theorem calculate_position_size_formula_check :
    calculate_position_size defaultParams 10000 100 2 =
      max (10000 * (defaultParams.risk_pct / 100) / 2 / 100) defaultParams.min_qty :=
  (calculate_position_size_formula defaultParams 10000 100 2 (by norm_num)).1 (by norm_num)

/-- C6 (confirmed): the local-peak predicate at bar t holds iff
`value[t-2] < value[t-1]` and `value[t-1] > value[t]`, is false at series
boundaries where t-2 is undefined, and on the spec's example series
1.0, 1.5, 2.0, 1.8, 1.2 it is true exactly at bar 3. -/
theorem is_macd_line_peaked_spec :
    (∀ (m : List ℚ) (t : ℕ), 2 ≤ t → t < m.length →
      (is_macd_line_peaked m t = true ↔
        (m.getD (t-2) 0 < m.getD (t-1) 0 ∧ m.getD t 0 < m.getD (t-1) 0))) ∧
    (∀ (m : List ℚ) (t : ℕ), t < 2 → is_macd_line_peaked m t = false) ∧
    (∀ t : ℕ, is_macd_line_peaked peakExampleSeries t = true ↔ t = 3) := by
  refine ⟨?_, ?_, ?_⟩
  · intro m t h2 hlen
    unfold is_macd_line_peaked
    rw [if_pos ⟨h2, hlen⟩]
    simp
  · intro m t ht
    unfold is_macd_line_peaked
    rw [if_neg]
    intro h
    omega
  · intro t
    rcases t with _ | _ | _ | _ | _ | n
    · norm_num [is_macd_line_peaked, peakExampleSeries]
    · norm_num [is_macd_line_peaked, peakExampleSeries]
    · norm_num [is_macd_line_peaked, peakExampleSeries]
    · norm_num [is_macd_line_peaked, peakExampleSeries]
    · norm_num [is_macd_line_peaked, peakExampleSeries]
    · unfold is_macd_line_peaked
      rw [if_neg]
      · simp
      · intro h
        have := h.2
        simp [peakExampleSeries] at this
        omega

/-- C6 check at the example peak bar. -/
theorem is_macd_line_peaked_spec_check :
    is_macd_line_peaked peakExampleSeries 3 = true :=
  (is_macd_line_peaked_spec.2.2 3).mpr rfl

/-- C8 (confirmed): on a Canceled, Margin or Rejected notification both
MACD variants clear only the pending-order marker; every other state
field (position level, peak flag, stop price, entry price, duplicate-bar
marker) is left unchanged. -/
theorem rejection_clears_only_pending (p : V2Params) (s2 : V2State)
    (s1 : V1State) (ev : OrderEvent) (atr0 position_after : ℚ)
    (h : ev.status = OrderStatus.canceled ∨ ev.status = OrderStatus.margin ∨
      ev.status = OrderStatus.rejected) :
    v2NotifyOrder p s2 ev atr0 position_after = { s2 with order := false } ∧
    v1NotifyOrder s1 ev position_after = { s1 with order := false } := by
  unfold v2NotifyOrder v1NotifyOrder
  rcases h with h | h | h <;> rw [h] <;> exact ⟨rfl, rfl⟩

/-- C8 check: a margin rejection clears the pending marker and keeps the
position state. -/
theorem rejection_clears_only_pending_check :
    v2NotifyOrder defaultParams stopHitState marginRejectionEvent 1 1 =
      { stopHitState with order := false } :=
  (rejection_clears_only_pending defaultParams stopHitState initialV1State
    marginRejectionEvent 1 1 (Or.inr (Or.inl rfl))).1

/-- C10 (confirmed): `check_stop_loss` is false whenever the stored stop
price is unset or exactly 0; `next` never writes the stop price; and
`notify_order` can set it to a value only on a completed buy fill (any
other notification leaves it unchanged or clears it to none on full
close).  Hence a stop-loss Close presupposes a confirmed buy fill, and a
computed stop price of exactly zero silently disables the stop-loss. -/
theorem stop_loss_requires_buy_fill :
    (∀ pos close0 : ℚ, check_stop_loss pos none close0 = false) ∧
    (∀ pos close0 : ℚ, check_stop_loss pos (some 0) close0 = false) ∧
    (∀ (p : V2Params) (s : V2State) (b : V2Bar),
      (v2Next p s b).1.stop_price = s.stop_price) ∧
    (∀ (p : V2Params) (s : V2State) (ev : OrderEvent) (atr0 pos_after : ℚ),
      ¬ (ev.status = OrderStatus.completed ∧ ev.isbuy = true) →
      (v2NotifyOrder p s ev atr0 pos_after).stop_price = s.stop_price ∨
      (v2NotifyOrder p s ev atr0 pos_after).stop_price = none) := by
  refine ⟨?_, ?_, v2Next_preserves_stop_price, ?_⟩
  · intro pos close0
    rfl
  · intro pos close0
    unfold check_stop_loss
    simp
  · intro p s ev atr0 pos_after hn
    rcases ev with ⟨st, ib, px⟩
    cases st
    case completed =>
      have hib : ib = false := by
        cases ib
        · rfl
        · exact absurd ⟨rfl, rfl⟩ hn
      subst hib
      unfold v2NotifyOrder
      dsimp only
      by_cases hp : pos_after = 0
      · rw [if_pos hp]
        exact Or.inr rfl
      · rw [if_neg hp]
        exact Or.inl rfl
    all_goals exact Or.inl rfl

/-- C10 check: a margin rejection does not touch the stored stop price. -/
theorem stop_loss_requires_buy_fill_check :
    (v2NotifyOrder defaultParams stopHitState marginRejectionEvent 1 1).stop_price =
        stopHitState.stop_price ∨
      (v2NotifyOrder defaultParams stopHitState marginRejectionEvent 1 1).stop_price = none :=
  stop_loss_requires_buy_fill.2.2.2 defaultParams stopHitState marginRejectionEvent 1 1
    (by simp [marginRejectionEvent])

/-- C5 (amended): on a processed bar (guards passed), whenever a position
is held and the stored stop price is set and nonzero and the close is at
or below it, the stop-loss check fires before any entry or exit logic:
the result is exactly one Close intent with only the pending marker and
the duplicate-signal marker updated, for every possible value of the
indicator inputs.  (The claim as stated also covers a stored stop price
of exactly 0.0, where the Python truthiness test skips the check — see
the counterexample.) -/
theorem v2_stop_check_precedes_all (p : V2Params) (s : V2State) (b : V2Bar)
    (sp : ℚ)
    (horder : s.order = false)
    (hwarm : p.p_slow2 + p.p_signal ≤ b.len)
    (hdate : b.datePrev < b.date0)
    (hsig : s.last_signal_bar ≠ some b.len)
    (hsp : s.stop_price = some sp) (hsp0 : sp ≠ 0)
    (hpos : b.position_size ≠ 0)
    (hclose : b.close0 ≤ sp) :
    v2Next p s b =
      ({ s with order := true, last_signal_bar := some b.len },
        some OrderIntent.close) := by
  have h1 : ¬ (s.order = true) := by
    rw [horder]
    exact Bool.false_ne_true
  have h2 : ¬ (b.len < p.p_slow2 + p.p_signal) := not_lt.mpr hwarm
  have h3 : ¬ (1 < b.len ∧ b.date0 ≤ b.datePrev) :=
    fun hq => absurd hq.2 (not_le.mpr hdate)
  have hstop : check_stop_loss b.position_size s.stop_price b.close0 = true := by
    rw [hsp]
    show (if b.position_size ≠ 0 ∧ sp ≠ 0 then decide (b.close0 ≤ sp) else false) = true
    rw [if_pos ⟨hpos, hsp0⟩]
    exact decide_eq_true hclose
  unfold v2Next
  rw [if_neg h1, if_neg h2, if_neg h3, if_neg hsig, if_pos hstop]

/-- C5 check: on a bar closing below a nonzero stored stop the strategy
emits exactly the stop Close. -/
theorem v2_stop_check_precedes_all_check :
    v2Next defaultParams stopHitState stopHitBar =
      ({ stopHitState with order := true, last_signal_bar := some 49 },
        some OrderIntent.close) :=
  v2_stop_check_precedes_all defaultParams stopHitState stopHitBar 4
    rfl (by norm_num [defaultParams, stopHitBar]) (by norm_num [stopHitBar])
    (by simp [stopHitState]) rfl (by norm_num) (by norm_num [stopHitBar])
    (by norm_num [stopHitBar])

/-- C5 counterexample: with a held position whose stored stop price is
exactly 0.0 and a bar closing at -1 ≤ 0, the claim's premise holds (close
at or below the stored stop while a position is held) yet no Close is
emitted: the truthiness test in `check_stop_loss` skips the stop branch,
the remaining exit logic is evaluated, and the peak exit emits a
half-size Sell instead. -/
theorem v2_stop_check_skipped_at_zero_stop :
    zeroStopState.stop_price = some 0 ∧
    zeroStopBar.close0 ≤ 0 ∧
    zeroStopBar.position_size ≠ 0 ∧
    (v2Next defaultParams zeroStopState zeroStopBar).2 =
      some (OrderIntent.sell (1/2)) ∧
    (v2Next defaultParams zeroStopState zeroStopBar).2 ≠ some OrderIntent.close := by
  refine ⟨rfl, by norm_num [zeroStopBar], by norm_num [zeroStopBar], ?_, ?_⟩
  · norm_num [v2Next, check_stop_loss, defaultParams, zeroStopState, zeroStopBar]
    simp
  · norm_num [v2Next, check_stop_loss, defaultParams, zeroStopState, zeroStopBar]
    simp

/-- C4 counterexample: `SmaCrossStrategy.next` emits a Buy although an
order is already pending (pending flag true, flat position, positive
crossover), so Variant A does not apply the shared pending-order guard. -/
theorem smaCross_emits_while_order_pending :
    smaCrossNext true 0 1 = some (OrderIntent.buy none) := by
  norm_num [smaCrossNext]

/-- C4 (amended): the two MACD variants apply the shared per-bar guards —
each returns no intent and leaves its state unchanged while an order is
pending, before the warm-up length is reached, and on a bar index already
recorded as processed — and each emits at most one intent per bar; but
the simple crossover Variant A applies none of these guards: its source
checks nothing beyond position and crossover sign, and it emits a Buy
while an order is pending. -/
theorem shared_guards_macd_variants_only :
    (∀ (p : V2Params) (s : V2State) (b : V2Bar), s.order = true →
      v2Next p s b = (s, none)) ∧
    (∀ (p : V2Params) (s : V2State) (b : V2Bar), b.len < p.p_slow2 + p.p_signal →
      v2Next p s b = (s, none)) ∧
    (∀ (p : V2Params) (s : V2State) (b : V2Bar), s.last_signal_bar = some b.len →
      v2Next p s b = (s, none)) ∧
    (∀ (ps psig : ℕ) (s : V1State) (b : V1Bar), s.order = true →
      v1Next ps psig s b = (s, none)) ∧
    (∀ (ps psig : ℕ) (s : V1State) (b : V1Bar), b.len < ps + psig →
      v1Next ps psig s b = (s, none)) ∧
    (∀ (ps psig : ℕ) (s : V1State) (b : V1Bar), s.last_signal_bar = some b.len →
      v1Next ps psig s b = (s, none)) ∧
    smaCrossNext true 0 1 = some (OrderIntent.buy none) := by
  refine ⟨?_, ?_, ?_, ?_, ?_, ?_, by norm_num [smaCrossNext]⟩
  · exact fun p s b h => v2Next_skips p s b (Or.inl h)
  · exact fun p s b h => v2Next_skips p s b (Or.inr (Or.inl h))
  · exact fun p s b h => v2Next_skips p s b (Or.inr (Or.inr (Or.inr h)))
  · exact fun ps psig s b h => v1Next_skips ps psig s b (Or.inl h)
  · exact fun ps psig s b h => v1Next_skips ps psig s b (Or.inr (Or.inl h))
  · exact fun ps psig s b h => v1Next_skips ps psig s b (Or.inr (Or.inr (Or.inr h)))

/-- C4 amended-claim check: variant C stays silent while its pending
marker is set. -/
theorem shared_guards_macd_variants_only_check :
    v2Next defaultParams { initialV2State with order := true } staleDateBar =
      ({ initialV2State with order := true }, none) :=
  shared_guards_macd_variants_only.1 defaultParams
    { initialV2State with order := true } staleDateBar rfl

/-- C9 (confirmed): in both MACD variants every bar whose calendar date is
at or before the previous bar's date is skipped entirely (state unchanged,
no intent, hence no entry, exit or stop-loss logic); consequently, over
any run with nondecreasing calendar dates — whatever states the
order/fill environment produces — any two bars that emit intents carry
strictly increasing dates, so at most one intent is emitted per calendar
day. -/
theorem stale_date_bars_skipped_once_per_day :
    (∀ (p : V2Params) (s : V2State) (b : V2Bar),
      1 < b.len → b.date0 ≤ b.datePrev → v2Next p s b = (s, none)) ∧
    (∀ (ps psig : ℕ) (s : V1State) (b : V1Bar),
      1 < b.len → b.date0 ≤ b.datePrev → v1Next ps psig s b = (s, none)) ∧
    (∀ (p : V2Params) (states : ℕ → V2State) (bars : ℕ → V2Bar) (dates : ℕ → ℤ),
      (∀ k, (bars k).len = k + 1) → (∀ k, (bars k).date0 = dates k) →
      (∀ k, (bars k).datePrev = dates (k - 1)) → Monotone dates →
      ∀ i j, i < j → (v2Next p (states i) (bars i)).2.isSome →
        (v2Next p (states j) (bars j)).2.isSome → dates i < dates j) ∧
    (∀ (ps psig : ℕ) (states : ℕ → V1State) (bars : ℕ → V1Bar) (dates : ℕ → ℤ),
      (∀ k, (bars k).len = k + 1) → (∀ k, (bars k).date0 = dates k) →
      (∀ k, (bars k).datePrev = dates (k - 1)) → Monotone dates →
      ∀ i j, i < j → (v1Next ps psig (states i) (bars i)).2.isSome →
        (v1Next ps psig (states j) (bars j)).2.isSome → dates i < dates j) := by
  refine ⟨?_, ?_, ?_, ?_⟩
  · exact fun p s b hl hd => v2Next_skips p s b (Or.inr (Or.inr (Or.inl ⟨hl, hd⟩)))
  · exact fun ps psig s b hl hd =>
      v1Next_skips ps psig s b (Or.inr (Or.inr (Or.inl ⟨hl, hd⟩)))
  · intro p states bars dates hlen hd0 hdp hmono i j hij hsi hsj
    have hdj : dates (j - 1) < dates j := by
      by_contra hcon
      push_neg at hcon
      have hskip := v2Next_skips p (states j) (bars j)
        (Or.inr (Or.inr (Or.inl ⟨by rw [hlen j]; omega,
          by rw [hd0 j, hdp j]; exact hcon⟩)))
      rw [hskip] at hsj
      simp at hsj
    have hmon : dates i ≤ dates (j - 1) := hmono (by omega)
    omega
  · intro ps psig states bars dates hlen hd0 hdp hmono i j hij hsi hsj
    have hdj : dates (j - 1) < dates j := by
      by_contra hcon
      push_neg at hcon
      have hskip := v1Next_skips ps psig (states j) (bars j)
        (Or.inr (Or.inr (Or.inl ⟨by rw [hlen j]; omega,
          by rw [hd0 j, hdp j]; exact hcon⟩)))
      rw [hskip] at hsj
      simp at hsj
    have hmon : dates i ≤ dates (j - 1) := hmono (by omega)
    omega

/-- C9 check: a stale-dated bar is skipped with the state untouched. -/
theorem stale_date_bars_skipped_check :
    v2Next defaultParams initialV2State staleDateBar = (initialV2State, none) :=
  stale_date_bars_skipped_once_per_day.1 defaultParams initialV2State staleDateBar
    (by norm_num [staleDateBar]) (by norm_num [staleDateBar])

theorem wfaStep_adjacent (td ted x : ℤ) (hted : 0 ≤ ted) :
    (wfaStep td ted x).test_start = (wfaStep td ted x).train_end + 1 ∧
    (wfaStep td ted (x + ted)).train_start = (wfaStep td ted x).train_start + ted ∧
    (wfaStep td ted (x + ted)).test_start = (wfaStep td ted x).test_end ∧
    (∀ d : ℤ,
      ((wfaStep td ted x).test_start ≤ d ∧ d ≤ (wfaStep td ted x).test_end ∧
        (wfaStep td ted (x + ted)).test_start ≤ d ∧
        d ≤ (wfaStep td ted (x + ted)).test_end) ↔
      d = (wfaStep td ted x).test_end) := by
  unfold wfaStep
  dsimp only
  refine ⟨rfl, rfl, by ring, ?_⟩
  intro d
  constructor
  · rintro ⟨ha, hb, hc, hd⟩
    omega
  · rintro rfl
    refine ⟨by omega, by omega, by omega, by omega⟩

/-- C2 (amended): in every walk-forward run, each cycle's test window
starts exactly one day after its train window ends and the cursor
advances by exactly the test length per cycle, as claimed; but
consecutive test windows are not disjoint: cycle k's test_end equals
cycle k+1's test_start, and (for a nonnegative test length) that boundary
day is exactly the one day lying in both inclusive test windows, so
consecutive test windows share exactly one day. -/
theorem wfa_windows_adjacency (st ed td ted : ℤ) (i : ℕ) (c c' : WfaCycle)
    (hted : 0 ≤ ted)
    (hc : (wfaCycles st ed td ted)[i]? = some c)
    (hc' : (wfaCycles st ed td ted)[i+1]? = some c') :
    c.test_start = c.train_end + 1 ∧
    c'.train_start = c.train_start + ted ∧
    c'.test_start = c.test_end ∧
    (∀ d : ℤ, (c.test_start ≤ d ∧ d ≤ c.test_end ∧
      c'.test_start ≤ d ∧ d ≤ c'.test_end) ↔ d = c.test_end) := by
  have h1 := wfaLoop_getElem_eq td ted ed ((ed - st).toNat + 1) st i c hc
  have h2 := wfaLoop_getElem_eq td ted ed ((ed - st).toNat + 1) st (i+1) c' hc'
  have hx : st + ((i+1 : ℕ) : ℤ) * ted = st + (i : ℤ) * ted + ted := by
    push_cast
    ring
  rw [hx] at h2
  rw [h1, h2]
  exact wfaStep_adjacent td ted (st + (i : ℤ) * ted) hted

/-- C2 counterexample: in the concrete run with series start day 0, end
day 400, train length 200 days and test length 50 days, the first two
cycles' test windows are [201, 251] and [251, 301]; since the pandas
`.loc[a:b]` slices taken in `run_single_wfa_cycle` include both
endpoints, the two consecutive test windows share the bar of day 251,
contradicting the claimed non-overlap. -/
theorem wfa_consecutive_test_windows_share_a_day :
    (wfaCycles 0 400 200 50)[0]? =
      some { train_start := 0, train_end := 200, test_start := 201, test_end := 251 } ∧
    (wfaCycles 0 400 200 50)[1]? =
      some { train_start := 50, train_end := 250, test_start := 251, test_end := 301 } ∧
    ((201 : ℤ) ≤ 251 ∧ (251 : ℤ) ≤ 251 ∧ (251 : ℤ) ≤ 251 ∧ (251 : ℤ) ≤ 301) := by
  refine ⟨by decide, by decide, by norm_num⟩

/-- C2 amended-claim check on the concrete run. -/
theorem wfa_windows_adjacency_check :
    ({ train_start := 50, train_end := 250, test_start := 251,
        test_end := 301 } : WfaCycle).test_start =
      ({ train_start := 0, train_end := 200, test_start := 201,
          test_end := 251 } : WfaCycle).test_end :=
  (wfa_windows_adjacency 0 400 200 50 0
    { train_start := 0, train_end := 200, test_start := 201, test_end := 251 }
    { train_start := 50, train_end := 250, test_start := 251, test_end := 301 }
    (by norm_num) (by decide) (by decide)).2.2.1

/-- C3 counterexample: `print_optimization_summary` silently drops a
result whose ranking metric is missing or None — the entry is in the
input but nowhere in the ranked output, rather than being ranked below
the finite-valued results. -/
theorem rankedResults_drops_missing_metric :
    ({ idx := 1, metric := none } : OptEntry) ∈ optEntriesExample ∧
    ({ idx := 1, metric := none } : OptEntry) ∉ rankedResults optEntriesExample := by
  constructor
  · simp [optEntriesExample]
  · simp [rankedResults, validResults, sortDescOpt, insertDescOpt, metricKey,
      optEntriesExample]

/-- C3 (amended): the ranked output of `print_optimization_summary` is a
permutation of the metric-carrying results only (missing/None entries are
silently filtered out, not ranked lowest), and on those kept results the
descending sort is stable: along the output, metrics are nonincreasing
and entries with equal metrics keep their original enumeration order. -/
theorem rankedResults_stable_descending (l : List OptEntry)
    (hidx : l.Pairwise fun a b => a.idx < b.idx) :
    List.Perm (rankedResults l) (validResults l) ∧
    (rankedResults l).Pairwise rankLt := by
  constructor
  · exact sortDescOpt_perm _
  · exact sortDescOpt_pairwise _ (List.Pairwise.filter _ hidx)

/-- C3 amended-claim check on a concrete enumeration. -/
theorem rankedResults_stable_descending_check :
    List.Perm (rankedResults optEntriesExample) (validResults optEntriesExample) ∧
    (rankedResults optEntriesExample).Pairwise rankLt :=
  rankedResults_stable_descending optEntriesExample
    (by norm_num [optEntriesExample, List.pairwise_cons])
